import Mathlib

/-!
Shallow embedding of `Adafruit_SI5351.cpp` (Adafruit Si5351 clock-generator
driver) and verification of its specification claims.

Modelling choices:
* Machine integers are `ℕ` (no arithmetic in the driver reaches the `uint32_t`
  wrap in its validated domains); the three packed register fields are kept as
  `ℤ` because the fractional path of the source can mathematically produce a
  negative `P2` before its (undefined-behaviour) cast to `uint32_t`.
* The source computes its fractional terms in C `float`.  That arithmetic is
  modelled exactly by `rnd32F`: IEEE-754 binary32 round-to-nearest, ties to
  even, applied to exact fractions represented as numerator/denominator pairs
  of naturals.  All the driver's float values are nonnegative and in binary32
  normal range, and the surrounding `double`/integer arithmetic of the source
  is exact, so a single rounding per float operation is a faithful model.
* The I2C bus is an oracle (`Bus`): transaction `i` succeeds iff `bus.ok i`,
  and a read delivers `bus.val i` (on a failed read the C out-parameter holds
  indeterminate junk; the oracle chooses that junk too, mirroring that the
  source consumes whatever landed in the buffer).  Every operation returns the
  error code, the resulting driver state, and the list of bus transactions it
  attempted, in order.
* Register addresses are the numeric values carried in the register-constant
  names of the source (`SI5351_REGISTER_44_MULTISYNTH0_PARAMETERS_3` is
  register 44, and so on); the constants themselves live in the header, which
  only declares plain data.
-/

namespace Si5351

/-! ## Binary32 model -/

/-- Fuel-bounded floor of the base-2 logarithm on naturals; fuel 64 covers
every quantity in this development. -/
def lg2 : ℕ → ℕ → ℕ
  | 0, _ => 0
  | fuel + 1, n => if n ≤ 1 then 0 else lg2 fuel (n / 2) + 1

/-- An unreduced nonnegative fraction `n / d`; every constructor in this file
keeps `d` positive. -/
structure Frac where
  n : ℕ
  d : ℕ
deriving DecidableEq

def mulF (a b : Frac) : Frac := ⟨a.n * b.n, a.d * b.d⟩

def addF (a b : Frac) : Frac := ⟨a.n * b.d + b.n * a.d, a.d * b.d⟩

def floorF (a : Frac) : ℕ := a.n / a.d

/-- Round `a / b` to the nearest natural, ties to even. -/
def rheF (a b : ℕ) : ℕ :=
  let q := a / b
  let r := a % b
  if 2 * r < b then q
  else if b < 2 * r then q + 1
  else if q % 2 = 0 then q else q + 1

/-- Floor of the base-2 logarithm of `n / d` (both positive). -/
def qexp (n d : ℕ) : ℤ :=
  if d ≤ n then (lg2 64 (n / d) : ℤ)
  else
    let m := lg2 64 (d / n)
    if d = n * 2 ^ m then -(m : ℤ) else -((m : ℤ) + 1)

/-- Round-to-nearest-even at 24 significand bits: the value an IEEE-754
binary32 operation delivers for a nonnegative result in normal range
(every float the driver computes lies in that range). -/
def rnd32F (f : Frac) : Frac :=
  if f.n = 0 then ⟨0, 1⟩
  else
    let k := qexp f.n f.d - 23
    if 0 ≤ k then ⟨rheF f.n (f.d * 2 ^ k.toNat) * 2 ^ k.toNat, 1⟩
    else ⟨rheF (f.n * 2 ^ (-k).toNat) f.d, 2 ^ (-k).toNat⟩

/-- `floor(128 * ((float)num / (float)denom))` exactly as the source's binary32
evaluation computes it: one rounded division, one rounded multiplication by
128, then an exact floor. -/
def fl128 (num denom : ℕ) : ℕ :=
  floorF (rnd32F (mulF ⟨128, 1⟩ (rnd32F ⟨num, denom⟩)))

/-- The VCO frequency value the source computes in
`crystalFreq * (mult + ((float)num / (float)denom))`: the conversions of
`num`, `denom` and `mult` are exact, each float operation rounds once, and the
`uint32_t`-to-float conversion of `crystalFreq` rounds once. -/
def fvcoF (crystal mult num denom : ℕ) : Frac :=
  rnd32F (mulF (rnd32F ⟨crystal, 1⟩) (rnd32F (addF ⟨mult, 1⟩ (rnd32F ⟨num, denom⟩))))

/-! ## Packed register fields -/

/-- The `(P1, P2, P3)` computed by `setupPLL` (lines 251-263 of the source):
integer mode for `num = 0` (`P1 = 128*mult - 512`, `P2 = num`, `P3 = denom`),
otherwise the fractional mode with the float-evaluated floor term.  Values are
the mathematical integers the source's expressions denote, before the
`uint32_t` casts. -/
def pllPVals (mult num denom : ℕ) : ℤ × ℤ × ℤ :=
  if num = 0 then
    (128 * (mult : ℤ) - 512, (num : ℤ), (denom : ℤ))
  else
    (128 * (mult : ℤ) + (fl128 num denom : ℤ) - 512,
     128 * (num : ℤ) - (denom : ℤ) * (fl128 num denom : ℤ),
     (denom : ℤ))

/-- The `(P1, P2, P3)` computed by `setupMultisynth` (lines 439-455): integer
mode for `num = 0`; a "simplified" closed form for `num ≠ 0 ∧ denom = 1`;
otherwise the fractional mode with the float-evaluated floor term. -/
def msPVals (div num denom : ℕ) : ℤ × ℤ × ℤ :=
  if num = 0 then
    (128 * (div : ℤ) - 512, 0, (denom : ℤ))
  else if denom = 1 then
    (128 * (div : ℤ) + 128 * (num : ℤ) - 512, 128 * (num : ℤ) - 128, 1)
  else
    (128 * (div : ℤ) + (fl128 num denom : ℤ) - 512,
     128 * (num : ℤ) - (denom : ℤ) * (fl128 num denom : ℤ),
     (denom : ℤ))

/-- The exact register-field formulas documented in the source's comments
(lines 233-248 and 421-436), in the spec, and in the AN619 application note:
`P1 = 128*a + floor(128*b/c) - 512`, `P2 = 128*b - c*floor(128*b/c)`,
`P3 = c`.  Stated for both synthesis stages (they share the formulas). -/
def specPVals (a num denom : ℕ) : ℤ × ℤ × ℤ :=
  (128 * (a : ℤ) + ((128 * num / denom : ℕ) : ℤ) - 512,
   128 * (num : ℤ) - (denom : ℤ) * ((128 * num / denom : ℕ) : ℤ),
   (denom : ℤ))

/-! ## Driver state and bus model -/

/-- Error codes of the driver (`err_t` values used by the source). -/
inductive err_t where
  | ERROR_NONE
  | ERROR_DEVICENOTINITIALISED
  | ERROR_INVALIDPARAMETER
  | ERROR_I2C_TRANSACTION
  | ERROR_I2C_DEVICENOTFOUND
deriving DecidableEq

/-- The two PLL identities (`si5351PLL_t`). -/
inductive si5351PLL_t where
  | SI5351_PLL_A
  | SI5351_PLL_B
deriving DecidableEq

/-- `si5351Config_t`: the driver's cached configuration record. -/
structure si5351Config_t where
  initialised : Bool
  crystalFreq : ℕ
  crystalLoad : ℕ
  crystalPPM : ℕ
  plla_configured : Bool
  plla_freq : ℕ
  pllb_configured : Bool
  pllb_freq : ℕ
deriving DecidableEq

/-- The mutable instance state of `Adafruit_SI5351`: the config record plus
the three-element `lastRdivValue` array (one stored R-divider field per
output channel). -/
structure DriverState where
  m_si5351Config : si5351Config_t
  lastRdiv0 : ℕ
  lastRdiv1 : ℕ
  lastRdiv2 : ℕ
deriving DecidableEq

/-- `lastRdivValue[i]` of the source, for `i < 3`. -/
def lastRdivValue (s : DriverState) (i : ℕ) : ℕ :=
  if i = 0 then s.lastRdiv0 else if i = 1 then s.lastRdiv1 else s.lastRdiv2

/-- `lastRdivValue[i] = v` of the source, for `i < 3`. -/
def setLastRdiv (s : DriverState) (i v : ℕ) : DriverState :=
  if i = 0 then { s with lastRdiv0 := v }
  else if i = 1 then { s with lastRdiv1 := v }
  else { s with lastRdiv2 := v }

/-- Value of `SI5351_CRYSTAL_LOAD_10PF` (header enum `(3 << 6)`); no claim
depends on it. -/
def SI5351_CRYSTAL_LOAD_10PF : ℕ := 3 <<< 6

/-- The constructor state: `Adafruit_SI5351::Adafruit_SI5351()`. -/
def initialState : DriverState :=
  { m_si5351Config :=
      { initialised := false
        crystalFreq := 25000000
        crystalLoad := SI5351_CRYSTAL_LOAD_10PF
        crystalPPM := 30
        plla_configured := false
        plla_freq := 0
        pllb_configured := false
        pllb_freq := 0 }
    lastRdiv0 := 0
    lastRdiv1 := 0
    lastRdiv2 := 0 }

/-- A bus transaction as it appears on the wire: a single register write, a
burst write (first byte is the start register), or a register read. -/
inductive Tx where
  | w8 (reg val : ℕ)
  | wN (data : List ℕ)
  | r8 (reg : ℕ)
deriving DecidableEq

/-- Bus oracle: `detect` is whether `i2c_dev->begin()` finds the device,
`ok i` is whether the i-th transaction of an operation succeeds, and `val i`
is the byte a read delivers (junk, if the read failed). -/
structure Bus where
  detect : Bool
  ok : ℕ → Bool
  val : ℕ → ℕ

/-- Bookkeeping while an operation runs: the index of the next bus
transaction and the transactions attempted so far. -/
structure MState where
  idx : ℕ
  tr : List Tx
deriving DecidableEq

/-- Result of a public operation: error code, resulting driver state, and the
bus transactions attempted. -/
structure Outcome where
  err : err_t
  st : DriverState
  tr : List Tx
deriving DecidableEq

/-- `Adafruit_SI5351::write8`: one register write; failure maps to
`ERROR_I2C_TRANSACTION`. -/
def write8 (bus : Bus) (st : MState) (reg v : ℕ) : err_t × MState :=
  ((if bus.ok st.idx then .ERROR_NONE else .ERROR_I2C_TRANSACTION),
   ⟨st.idx + 1, st.tr ++ [Tx.w8 reg v]⟩)

/-- `Adafruit_SI5351::writeN`: one burst write. -/
def writeN (bus : Bus) (st : MState) (data : List ℕ) : err_t × MState :=
  ((if bus.ok st.idx then .ERROR_NONE else .ERROR_I2C_TRANSACTION),
   ⟨st.idx + 1, st.tr ++ [Tx.wN data]⟩)

/-- `Adafruit_SI5351::read8`: one register read, delivering the oracle's
byte (indeterminate junk when the transaction failed, as in the source). -/
def read8 (bus : Bus) (st : MState) (reg : ℕ) : err_t × ℕ × MState :=
  ((if bus.ok st.idx then .ERROR_NONE else .ERROR_I2C_TRANSACTION),
   bus.val st.idx,
   ⟨st.idx + 1, st.tr ++ [Tx.r8 reg]⟩)

/-- Run a sequence of `ASSERT_STATUS(write8(...))` steps: stop at the first
failing write (which was still attempted on the wire). -/
def runW8s (bus : Bus) (st : MState) : List (ℕ × ℕ) → err_t × MState
  | [] => (.ERROR_NONE, st)
  | w :: ws =>
    match write8 bus st w.1 w.2 with
    | (.ERROR_NONE, st1) => runW8s bus st1 ws
    | (e, st1) => (e, st1)

/-! ## Operations -/

/-- Body shared by `enableSpreadSpectrum` and the internal call in `begin`:
read register 149, set or clear bit 7, write it back; both transaction
results are checked. -/
def spreadSpectrumCore (bus : Bus) (st : MState) (enabled : Bool) : err_t × MState :=
  match read8 bus st 149 with
  | (.ERROR_NONE, regval, st1) =>
    write8 bus st1 149 (if enabled then regval ||| 0x80 else regval &&& 0x7F)
  | (e, _, st1) => (e, st1)

/-- `Adafruit_SI5351::enableSpreadSpectrum` — note: no initialisation check
in the source. -/
def enableSpreadSpectrum (s : DriverState) (bus : Bus) (enabled : Bool) : Outcome :=
  let (e, st) := spreadSpectrumCore bus ⟨0, []⟩ enabled
  ⟨e, s, st.tr⟩

/-- `Adafruit_SI5351::begin`: device detection, then ten register writes
(output-enable off, eight clock controls powered down, crystal load), an
internal `enableSpreadSpectrum(false)` whose result the source ignores, reset
of the cached PLL records, and `initialised := true`. -/
def begin (s : DriverState) (bus : Bus) : Outcome :=
  if ¬(bus.detect = true) then ⟨.ERROR_I2C_DEVICENOTFOUND, s, []⟩
  else
    match runW8s bus ⟨0, []⟩
        [(3, 0xFF), (16, 0x80), (17, 0x80), (18, 0x80), (19, 0x80), (20, 0x80),
         (21, 0x80), (22, 0x80), (23, 0x80), (183, s.m_si5351Config.crystalLoad)] with
    | (.ERROR_NONE, st1) =>
      let (_, st2) := spreadSpectrumCore bus st1 false
      ⟨.ERROR_NONE,
       { s with m_si5351Config :=
          { s.m_si5351Config with
              plla_configured := false, plla_freq := 0,
              pllb_configured := false, pllb_freq := 0,
              initialised := true } },
       st2.tr⟩
    | (e, st1) => ⟨e, s, st1.tr⟩

/-- `Adafruit_SI5351::setClockBuilderData`, parametric in the preset table
`m_si5351_regs_15to92_149to170` (plain data living in the header, outside the
embedded source file). -/
def setClockBuilderData (regs : List (ℕ × ℕ)) (s : DriverState) (bus : Bus) : Outcome :=
  if ¬(s.m_si5351Config.initialised = true) then ⟨.ERROR_DEVICENOTINITIALISED, s, []⟩
  else
    match write8 bus ⟨0, []⟩ 3 0xFF with
    | (.ERROR_NONE, st1) =>
      match runW8s bus st1 regs with
      | (.ERROR_NONE, st2) =>
        match write8 bus st2 177 0xAC with
        | (.ERROR_NONE, st3) =>
          let (e, st4) := write8 bus st3 3 0x00
          ⟨e, s, st4.tr⟩
        | (e, st3) => ⟨e, s, st3.tr⟩
      | (e, st2) => ⟨e, s, st2.tr⟩
    | (e, st1) => ⟨e, s, st1.tr⟩

/-- The cached-PLL-record update of `setupPLL` (source lines 283-293):
mark the selected PLL configured and store the floor of the float-computed
VCO frequency. -/
def pllUpdate (s : DriverState) (pll : si5351PLL_t) (f : ℕ) : DriverState :=
  if pll = .SI5351_PLL_A then
    { s with m_si5351Config := { s.m_si5351Config with plla_configured := true, plla_freq := f } }
  else
    { s with m_si5351Config := { s.m_si5351Config with pllb_configured := true, pllb_freq := f } }

/-- `Adafruit_SI5351::setupPLL`: validation, the packed fields, the eight
parameter-register writes at base 26 (PLL A) or 34 (PLL B), the PLL reset
write (`0xA0` to register 177), then — only after every write succeeded — the
cached PLL record update with the float-computed VCO frequency. -/
def setupPLL (s : DriverState) (bus : Bus) (pll : si5351PLL_t)
    (mult num denom : ℕ) : Outcome :=
  if ¬(s.m_si5351Config.initialised = true) then ⟨.ERROR_DEVICENOTINITIALISED, s, []⟩
  else if ¬(14 < mult ∧ mult < 91) then ⟨.ERROR_INVALIDPARAMETER, s, []⟩
  else if ¬(0 < denom) then ⟨.ERROR_INVALIDPARAMETER, s, []⟩
  else if ¬(num ≤ 0xFFFFF) then ⟨.ERROR_INVALIDPARAMETER, s, []⟩
  else if ¬(denom ≤ 0xFFFFF) then ⟨.ERROR_INVALIDPARAMETER, s, []⟩
  else
    let pv := pllPVals mult num denom
    let P1 := pv.1.toNat
    let P2 := pv.2.1.toNat
    let P3 := pv.2.2.toNat
    let baseaddr := if pll = .SI5351_PLL_A then 26 else 34
    match runW8s bus ⟨0, []⟩
        [(baseaddr, (P3 &&& 0xFF00) >>> 8),
         (baseaddr + 1, P3 &&& 0xFF),
         (baseaddr + 2, (P1 &&& 0x30000) >>> 16),
         (baseaddr + 3, (P1 &&& 0xFF00) >>> 8),
         (baseaddr + 4, P1 &&& 0xFF),
         (baseaddr + 5, ((P3 &&& 0xF0000) >>> 12) ||| ((P2 &&& 0xF0000) >>> 16)),
         (baseaddr + 6, (P2 &&& 0xFF00) >>> 8),
         (baseaddr + 7, P2 &&& 0xFF),
         (177, 0xA0)] with
    | (.ERROR_NONE, st1) =>
      ⟨.ERROR_NONE,
       pllUpdate s pll (floorF (fvcoF s.m_si5351Config.crystalFreq mult num denom)),
       st1.tr⟩
    | (e, st1) => ⟨e, s, st1.tr⟩

/-- `Adafruit_SI5351::setupPLLInt`. -/
def setupPLLInt (s : DriverState) (bus : Bus) (pll : si5351PLL_t) (mult : ℕ) : Outcome :=
  setupPLL s bus pll mult 0 1

/-- Multisynth parameter-window base address for a channel (registers 42, 50,
58). -/
def msBase (output : ℕ) : ℕ :=
  if output = 0 then 42 else if output = 1 then 50 else 58

/-- The 9-byte burst buffer `sendBuffer` of `setupMultisynth` (lines
473-482): start register, then the eight packed parameter bytes; the third
parameter byte ORs the channel's stored R-divider field over the top two bits
of `P1`. -/
def msBurst (base P1 P2 P3 rdiv : ℕ) : List ℕ :=
  [base,
   (P3 &&& 0xFF00) >>> 8,
   P3 &&& 0xFF,
   ((P1 &&& 0x30000) >>> 16) ||| rdiv,
   (P1 &&& 0xFF00) >>> 8,
   P1 &&& 0xFF,
   ((P3 &&& 0xF0000) >>> 12) ||| ((P2 &&& 0xF0000) >>> 16),
   (P2 &&& 0xFF00) >>> 8,
   P2 &&& 0xFF]

/-- `Adafruit_SI5351::setupMultisynth`: validation (including that the
referenced PLL is configured), the packed fields, one 9-byte burst write,
then the channel's clock-control write.  The driver state is not modified. -/
def setupMultisynth (s : DriverState) (bus : Bus) (output : ℕ)
    (pllSource : si5351PLL_t) (div num denom : ℕ) : Outcome :=
  if ¬(s.m_si5351Config.initialised = true) then ⟨.ERROR_DEVICENOTINITIALISED, s, []⟩
  else if ¬(output < 3) then ⟨.ERROR_INVALIDPARAMETER, s, []⟩
  else if ¬(3 < div) then ⟨.ERROR_INVALIDPARAMETER, s, []⟩
  else if ¬(div < 2049) then ⟨.ERROR_INVALIDPARAMETER, s, []⟩
  else if ¬(0 < denom) then ⟨.ERROR_INVALIDPARAMETER, s, []⟩
  else if ¬(num ≤ 0xFFFFF) then ⟨.ERROR_INVALIDPARAMETER, s, []⟩
  else if ¬(denom ≤ 0xFFFFF) then ⟨.ERROR_INVALIDPARAMETER, s, []⟩
  else if ¬((if pllSource = .SI5351_PLL_A then s.m_si5351Config.plla_configured
             else s.m_si5351Config.pllb_configured) = true) then
    ⟨.ERROR_INVALIDPARAMETER, s, []⟩
  else
    let pv := msPVals div num denom
    match writeN bus ⟨0, []⟩
        (msBurst (msBase output) pv.1.toNat pv.2.1.toNat pv.2.2.toNat
          (lastRdivValue s output)) with
    | (.ERROR_NONE, st1) =>
      let clkControlReg :=
        0x0F ||| (if pllSource = .SI5351_PLL_B then 1 <<< 5 else 0)
             ||| (if num = 0 then 1 <<< 6 else 0)
      let creg := if output = 0 then 16 else if output = 1 then 17 else 18
      let (e, st2) := write8 bus st1 creg clkControlReg
      ⟨e, s, st2.tr⟩
    | (e, st1) => ⟨e, s, st1.tr⟩

/-- `Adafruit_SI5351::setupMultisynthInt`. -/
def setupMultisynthInt (s : DriverState) (bus : Bus) (output : ℕ)
    (pllSource : si5351PLL_t) (div : ℕ) : Outcome :=
  setupMultisynth s bus output pllSource div 0 1

/-- `Adafruit_SI5351::setupRdiv`: channel check only (no initialisation
check); reads the channel's divider-parameters register 3 (44/52/60) with the
read result DISCARDED as in the source, clears the high nibble, ORs in the
shifted 3-bit divider field, stores that field in `lastRdivValue`, and
returns the result of the write-back. -/
def setupRdiv (s : DriverState) (bus : Bus) (output div : ℕ) : Outcome :=
  if ¬(output < 3) then ⟨.ERROR_INVALIDPARAMETER, s, []⟩
  else
    let Rreg := if output = 0 then 44 else if output = 1 then 52 else 60
    match read8 bus ⟨0, []⟩ Rreg with
    | (_, regval, st1) =>
      let divider := (div &&& 0x07) <<< 4
      let s1 := setLastRdiv s output divider
      let (e, st2) := write8 bus st1 Rreg ((regval &&& 0x0F) ||| divider)
      ⟨e, s1, st2.tr⟩

/-- `Adafruit_SI5351::enableOutputs`: requires initialisation, then writes
`0x00` (all enabled) or `0xFF` (all disabled) to register 3. -/
def enableOutputs (s : DriverState) (bus : Bus) (enabled : Bool) : Outcome :=
  if ¬(s.m_si5351Config.initialised = true) then ⟨.ERROR_DEVICENOTINITIALISED, s, []⟩
  else
    let (e, st) := write8 bus ⟨0, []⟩ 3 (if enabled then 0x00 else 0xFF)
    ⟨e, s, st.tr⟩

/-! ## Concrete states and buses for witnesses and counterexamples -/

/-- A state as after a successful `begin`: initialised, neither PLL
configured. -/
def initedState : DriverState :=
  { initialState with m_si5351Config :=
      { initialState.m_si5351Config with initialised := true } }

/-- A state as after a successful `begin` followed by a successful PLL A
setup: initialised, PLL A configured. -/
def readyState : DriverState :=
  { initialState with m_si5351Config :=
      { initialState.m_si5351Config with
          initialised := true, plla_configured := true, plla_freq := 900000000 } }

/-- A bus on which the device is detected and every transaction succeeds,
reads delivering 0. -/
def busOk : Bus := ⟨true, fun _ => true, fun _ => 0⟩

/-- A bus on which device detection fails. -/
def busND : Bus := ⟨false, fun _ => true, fun _ => 0⟩

/-- A bus whose first transaction fails (all others succeed), reads
delivering junk byte 0xFF. -/
def busRF : Bus := ⟨true, fun i => decide (0 < i), fun _ => 0xFF⟩

/-! ## Helper lemmas -/

theorem runW8s_ok_fst (bus : Bus) (h : ∀ i, bus.ok i = true)
    (ws : List (ℕ × ℕ)) : ∀ st : MState, (runW8s bus st ws).1 = .ERROR_NONE := by
  induction ws with
  | nil => intro st; rfl
  | cons w ws ih => intro st; simp [runW8s, write8, h]; exact ih _

/-! ## Claim C2 -/

/-- Claim C2 (code bug): the source documents the exact integer formulas for
the fractional mode of `setupPLL`, but evaluates them in binary32 floats.  At
`mult = 15`, `num = 262144`, `denom = 1016801` (all inside the documented
domains) the float quotient rounds up to exactly 33/128, so the code computes
floor term 33 and `P1 = 1441`, `P2 = -1`, while the documented exact formulas
give floor term 32, `P1 = 1440`, `P2 = 1016800`. -/
theorem c2_float_floor_slip :
    pllPVals 15 262144 1016801 = (1441, -1, 1016801) ∧
    specPVals 15 262144 1016801 = (1440, 1016800, 1016801) ∧
    pllPVals 15 262144 1016801 ≠ specPVals 15 262144 1016801 := by decide

/-! ## Claim C3 -/

/-- Claim C3 (code bug): `setupMultisynth`'s simplified branch for
`num ≠ 0 ∧ denom = 1` must agree with the general floor-based formulas the
source documents, but at `div = 4`, `num = 2`, `denom = 1` it computes
`P2 = 128*2 - 128 = 128` where the general formula gives `P2 = 0` (they agree
on `P1` and `P3`); the PLL integer branch at `num = 0` does agree with the
general formulas. -/
theorem c3_simplified_branch_slip :
    msPVals 4 2 1 = (256, 128, 1) ∧
    specPVals 4 2 1 = (256, 0, 1) ∧
    msPVals 4 2 1 ≠ specPVals 4 2 1 ∧
    pllPVals 36 0 7 = specPVals 36 0 7 := by decide

/-! ## Claim C8 -/

/-- Claim C8 (code bug): `setupRdiv` does not check the result of its
read-modify-write `read8` — on a bus whose read transaction fails, it still
masks the junk byte (0xFF here), writes it back, and returns `ERROR_NONE`;
the read failure is silently swallowed. -/
theorem c8_read_result_ignored :
    busRF.ok 0 = false ∧
    (setupRdiv initialState busRF 0 7).tr = [Tx.r8 44, Tx.w8 44 0x7F] ∧
    (setupRdiv initialState busRF 0 7).err = .ERROR_NONE := by decide

/-! ## Claim C1 -/

/-- Claim C1, counterexample: with the 25 MHz crystal, `setupPLL` at
`mult = 43` (integer mode, all writes succeeding) stores
`plla_freq = 1075000064` — the binary32 product `25000000.0f * 43.0f` rounds
the exact 1075000000 up at a representation tie — so the stored frequency is
not `floor(crystalFreq * mult)`. -/
theorem c1_float_freq_counterexample :
    (setupPLL readyState busOk .SI5351_PLL_A 43 0 1).err = .ERROR_NONE ∧
    readyState.m_si5351Config.crystalFreq = 25000000 ∧
    (setupPLL readyState busOk .SI5351_PLL_A 43 0 1).st.m_si5351Config.plla_freq
      = 1075000064 ∧
    (1075000064 : ℕ) ≠ 25000000 * 43 := by decide

/-! ## Claim C6 -/

/-- Claim C6, counterexample: after `begin` fails device detection on a fresh
instance (leaving it uninitialised), `setupRdiv` and `enableSpreadSpectrum`
do NOT fail with `ERROR_DEVICENOTINITIALISED`: neither checks the
`initialised` flag, and both go straight to the bus and succeed. -/
theorem c6_unchecked_ops_counterexample :
    (begin initialState busND).err = .ERROR_I2C_DEVICENOTFOUND ∧
    (begin initialState busND).st.m_si5351Config.initialised = false ∧
    (setupRdiv (begin initialState busND).st busOk 0 7).err = .ERROR_NONE ∧
    (setupRdiv (begin initialState busND).st busOk 0 7).tr ≠ [] ∧
    (enableSpreadSpectrum (begin initialState busND).st busOk false).err
      = .ERROR_NONE ∧
    (enableSpreadSpectrum (begin initialState busND).st busOk false).tr ≠ []
    := by decide

/-! ## Claim C7 -/

/-- Claim C7, counterexample: after `setupRdiv` stores R-divider field 7 for
channel 0 (stored already shifted, as `0x70`), the Multisynth burst's third
parameter byte is `0x70`: its LOW nibble is 0 (the `P1` bits 17:16, here 0),
not the stored R-divider field — the field sits in the HIGH nibble. -/
theorem c7_low_nibble_counterexample :
    (setupMultisynth (setupRdiv readyState busOk 0 7).st busOk 0
        .SI5351_PLL_A 4 0 1).tr.head?
      = some (Tx.wN [42, 0, 1, 0x70, 0, 0, 0, 0, 0]) ∧
    (0x70 &&& 0x0F) = 0 ∧
    lastRdivValue (setupRdiv readyState busOk 0 7).st 0 = 0x70 ∧
    (0 : ℕ) ≠ 0x70 ∧ (0 : ℕ) ≠ 7 := by decide

/-! ## Claim C9 -/

/-- Claim C9, counterexample: inside the documented domains
(`div = 4`, `num = 1048575`, `denom = 1`) `setupMultisynth`'s packed fields
overflow their register widths: `P1 = 134217600 ≥ 2^18` and
`P2 = 134217472 ≥ 2^20`. -/
theorem c9_range_counterexample :
    msPVals 4 1048575 1 = (134217600, 134217472, 1) ∧
    ¬((134217600 : ℤ) < 2 ^ 18) ∧
    ¬((134217472 : ℤ) < 2 ^ 20) := by decide

/-- On an all-succeeding bus, `setupPLL` with valid parameters returns
`ERROR_NONE` and performs exactly the documented state update. -/
theorem setupPLL_ok (s : DriverState) (bus : Bus) (pll : si5351PLL_t)
    (mult num denom : ℕ)
    (hinit : s.m_si5351Config.initialised = true)
    (hm1 : 14 < mult) (hm2 : mult < 91) (hd0 : 0 < denom)
    (hn : num ≤ 0xFFFFF) (hd : denom ≤ 0xFFFFF)
    (hbus : ∀ i, bus.ok i = true) :
    (setupPLL s bus pll mult num denom).err = .ERROR_NONE ∧
    (setupPLL s bus pll mult num denom).st =
      pllUpdate s pll (floorF (fvcoF s.m_si5351Config.crystalFreq mult num denom)) := by
  unfold setupPLL
  simp only [hinit, hm1, hm2, hd0, hn, hd, and_self, not_true_eq_false, if_false]
  split
  case _ st1 heq => exact ⟨rfl, rfl⟩
  case _ e st1 hne heq =>
    exfalso
    have h1 := congrArg Prod.fst heq
    rw [runW8s_ok_fst bus hbus] at h1
    exact hne h1.symm

/-- On an all-succeeding bus, `setupMultisynth` with valid parameters and a
configured source PLL returns `ERROR_NONE` and leaves the driver state
unchanged. -/
theorem setupMultisynth_ok (s : DriverState) (bus : Bus) (output : ℕ)
    (pll : si5351PLL_t) (div num denom : ℕ)
    (hinit : s.m_si5351Config.initialised = true)
    (ho : output < 3) (h3 : 3 < div) (h4 : div < 2049) (hd0 : 0 < denom)
    (hn : num ≤ 0xFFFFF) (hd : denom ≤ 0xFFFFF)
    (hcfg : (if pll = .SI5351_PLL_A then s.m_si5351Config.plla_configured
             else s.m_si5351Config.pllb_configured) = true)
    (hbus : ∀ i, bus.ok i = true) :
    (setupMultisynth s bus output pll div num denom).err = .ERROR_NONE ∧
    (setupMultisynth s bus output pll div num denom).st = s := by
  unfold setupMultisynth
  simp only [hinit, ho, h3, h4, hd0, hn, hd, hcfg, and_self, not_true_eq_false, if_false]
  simp [writeN, write8, hbus]

/-! ## Claim C1 -/

/-- Claim C1 (corrected): for every multiplier in [15, 90], on an initialised
instance with all bus writes succeeding, `setupPLL` with `num = 0`,
`denom = 1` returns success, computes `P1 = 128*mult - 512`, `P2 = 0`,
`P3 = 1`, sets the selected PLL's configured flag, and stores as the PLL
frequency the floor of the binary32-computed product `crystalFreq * mult`
(not always `floor(crystalFreq * mult)` exactly — see the counterexample). -/
theorem c1_configurePll_integer_mode (s : DriverState) (bus : Bus) (mult : ℕ)
    (hinit : s.m_si5351Config.initialised = true)
    (hbus : ∀ i, bus.ok i = true)
    (hm1 : 14 < mult) (hm2 : mult < 91) :
    pllPVals mult 0 1 = (128 * (mult : ℤ) - 512, 0, 1) ∧
    (setupPLL s bus .SI5351_PLL_A mult 0 1).err = .ERROR_NONE ∧
    (setupPLL s bus .SI5351_PLL_A mult 0 1).st.m_si5351Config.plla_configured = true ∧
    (setupPLL s bus .SI5351_PLL_A mult 0 1).st.m_si5351Config.plla_freq
      = floorF (fvcoF s.m_si5351Config.crystalFreq mult 0 1) ∧
    (setupPLL s bus .SI5351_PLL_B mult 0 1).err = .ERROR_NONE ∧
    (setupPLL s bus .SI5351_PLL_B mult 0 1).st.m_si5351Config.pllb_configured = true ∧
    (setupPLL s bus .SI5351_PLL_B mult 0 1).st.m_si5351Config.pllb_freq
      = floorF (fvcoF s.m_si5351Config.crystalFreq mult 0 1) := by
  have hA := setupPLL_ok s bus .SI5351_PLL_A mult 0 1 hinit hm1 hm2
    (by norm_num) (by norm_num) (by norm_num) hbus
  have hB := setupPLL_ok s bus .SI5351_PLL_B mult 0 1 hinit hm1 hm2
    (by norm_num) (by norm_num) (by norm_num) hbus
  refine ⟨by simp [pllPVals], hA.1, ?_, ?_, hB.1, ?_, ?_⟩ <;>
    simp [hA.2, hB.2, pllUpdate]

/-- Claim C1 witness: the amended theorem applied at `mult = 36` on a fresh
initialised state. -/
theorem c1_witness :
    (setupPLL readyState busOk .SI5351_PLL_A 36 0 1).err = .ERROR_NONE ∧
    (setupPLL readyState busOk .SI5351_PLL_A 36 0 1).st.m_si5351Config.plla_configured
      = true :=
  ⟨(c1_configurePll_integer_mode readyState busOk 36 rfl (fun _ => rfl)
      (by norm_num) (by norm_num)).2.1,
   (c1_configurePll_integer_mode readyState busOk 36 rfl (fun _ => rfl)
      (by norm_num) (by norm_num)).2.2.1⟩

/-! ## Claim C10 -/

/-- Claim C10 (confirmed): whenever `setupPLL` returns any error — failed
validation or a failed bus transaction anywhere in its write sequence — the
driver state (in particular both cached PLL records) is unchanged; the
records are updated only on the all-writes-succeeded path. -/
theorem c10_state_unchanged_on_error (s : DriverState) (bus : Bus)
    (pll : si5351PLL_t) (mult num denom : ℕ)
    (h : (setupPLL s bus pll mult num denom).err ≠ .ERROR_NONE) :
    (setupPLL s bus pll mult num denom).st = s := by
  unfold setupPLL at h ⊢
  split_ifs at h ⊢ <;> try rfl
  all_goals dsimp only at h ⊢
  all_goals split at h
  all_goals first
  | exact absurd rfl h
  | rfl

/-- Claim C10 witness: a rejected multiplier leaves the state unchanged. -/
theorem c10_witness :
    (setupPLL readyState busOk .SI5351_PLL_A 14 0 1).st = readyState :=
  c10_state_unchanged_on_error readyState busOk .SI5351_PLL_A 14 0 1 (by decide)

/-! ## Claim C4 -/

/-- Claim C4 (confirmed): on an initialised instance with all other
parameters valid (and PLL A configured, all bus writes succeeding),
`setupPLL` rejects multipliers 14 and 91 with `ERROR_INVALIDPARAMETER` but
accepts 15 and 90, and `setupMultisynth` rejects dividers 3 and 2049 but
accepts 4 and 2048. -/
theorem c4_boundary_validation (s : DriverState) (bus : Bus)
    (hinit : s.m_si5351Config.initialised = true)
    (hcfg : s.m_si5351Config.plla_configured = true)
    (hbus : ∀ i, bus.ok i = true) :
    (setupPLL s bus .SI5351_PLL_A 14 0 1).err = .ERROR_INVALIDPARAMETER ∧
    (setupPLL s bus .SI5351_PLL_A 91 0 1).err = .ERROR_INVALIDPARAMETER ∧
    (setupPLL s bus .SI5351_PLL_A 15 0 1).err = .ERROR_NONE ∧
    (setupPLL s bus .SI5351_PLL_A 90 0 1).err = .ERROR_NONE ∧
    (setupMultisynth s bus 0 .SI5351_PLL_A 3 0 1).err = .ERROR_INVALIDPARAMETER ∧
    (setupMultisynth s bus 0 .SI5351_PLL_A 2049 0 1).err = .ERROR_INVALIDPARAMETER ∧
    (setupMultisynth s bus 0 .SI5351_PLL_A 4 0 1).err = .ERROR_NONE ∧
    (setupMultisynth s bus 0 .SI5351_PLL_A 2048 0 1).err = .ERROR_NONE := by
  refine ⟨?_, ?_,
    (setupPLL_ok s bus .SI5351_PLL_A 15 0 1 hinit (by norm_num) (by norm_num)
      (by norm_num) (by norm_num) (by norm_num) hbus).1,
    (setupPLL_ok s bus .SI5351_PLL_A 90 0 1 hinit (by norm_num) (by norm_num)
      (by norm_num) (by norm_num) (by norm_num) hbus).1,
    ?_, ?_,
    (setupMultisynth_ok s bus 0 .SI5351_PLL_A 4 0 1 hinit (by norm_num)
      (by norm_num) (by norm_num) (by norm_num) (by norm_num) (by norm_num)
      (by simp [hcfg]) hbus).1,
    (setupMultisynth_ok s bus 0 .SI5351_PLL_A 2048 0 1 hinit (by norm_num)
      (by norm_num) (by norm_num) (by norm_num) (by norm_num) (by norm_num)
      (by simp [hcfg]) hbus).1⟩ <;>
    simp [setupPLL, setupMultisynth, hinit]

/-- Claim C4 witness: the boundary theorem applied on a concrete ready
state and all-succeeding bus. -/
theorem c4_witness :
    (setupPLL readyState busOk .SI5351_PLL_A 14 0 1).err = .ERROR_INVALIDPARAMETER ∧
    (setupPLL readyState busOk .SI5351_PLL_A 15 0 1).err = .ERROR_NONE :=
  ⟨(c4_boundary_validation readyState busOk rfl rfl (fun _ => rfl)).1,
   (c4_boundary_validation readyState busOk rfl rfl (fun _ => rfl)).2.2.1⟩

/-! ## Claim C5 -/

/-- Claim C5 (confirmed): for every channel in [0, 2] and otherwise-valid
arguments on an initialised instance, if the referenced PLL is not
configured, `setupMultisynth` fails with `ERROR_INVALIDPARAMETER` and issues
no bus transaction. -/
theorem c5_unconfigured_pll_rejected (s : DriverState) (bus : Bus)
    (output : ℕ) (pll : si5351PLL_t) (div num denom : ℕ)
    (hinit : s.m_si5351Config.initialised = true)
    (ho : output < 3) (h3 : 3 < div) (h4 : div < 2049) (hd0 : 0 < denom)
    (hn : num ≤ 0xFFFFF) (hd : denom ≤ 0xFFFFF)
    (hcfg : (if pll = .SI5351_PLL_A then s.m_si5351Config.plla_configured
             else s.m_si5351Config.pllb_configured) = false) :
    setupMultisynth s bus output pll div num denom
      = ⟨.ERROR_INVALIDPARAMETER, s, []⟩ := by
  unfold setupMultisynth
  simp [hinit, ho, h3, h4, hd0, hn, hd, hcfg]

/-- Claim C5 witness: channel 0 referencing unconfigured PLL A on a freshly
initialised state. -/
theorem c5_witness :
    setupMultisynth initedState busOk 0 .SI5351_PLL_A 4 0 1
      = ⟨.ERROR_INVALIDPARAMETER, initedState, []⟩ :=
  c5_unconfigured_pll_rejected initedState busOk 0 .SI5351_PLL_A 4 0 1 rfl
    (by norm_num) (by norm_num) (by norm_num) (by norm_num) (by norm_num)
    (by norm_num) (by decide)

/-! ## Claim C6 -/

/-- Claim C6 (corrected): `begin` failing device detection returns
`ERROR_I2C_DEVICENOTFOUND` without touching the state (so a fresh instance
stays uninitialised), after which `setupPLL`, `setupMultisynth`,
`enableOutputs` and `setClockBuilderData` all fail with
`ERROR_DEVICENOTINITIALISED` without touching the bus.  (`setupRdiv` and
`enableSpreadSpectrum` perform no initialisation check — see the
counterexample.) -/
theorem c6_not_initialised_amended :
    (∀ s bus, bus.detect = false →
      begin s bus = ⟨.ERROR_I2C_DEVICENOTFOUND, s, []⟩) ∧
    (∀ s bus pll m n d, s.m_si5351Config.initialised = false →
      setupPLL s bus pll m n d = ⟨.ERROR_DEVICENOTINITIALISED, s, []⟩) ∧
    (∀ s bus o pll dv n d, s.m_si5351Config.initialised = false →
      setupMultisynth s bus o pll dv n d = ⟨.ERROR_DEVICENOTINITIALISED, s, []⟩) ∧
    (∀ s bus en, s.m_si5351Config.initialised = false →
      enableOutputs s bus en = ⟨.ERROR_DEVICENOTINITIALISED, s, []⟩) ∧
    (∀ regs s bus, s.m_si5351Config.initialised = false →
      setClockBuilderData regs s bus = ⟨.ERROR_DEVICENOTINITIALISED, s, []⟩) := by
  refine ⟨?_, ?_, ?_, ?_, ?_⟩ <;> intros s bus <;> intros <;>
    simp_all [begin, setupPLL, setupMultisynth, enableOutputs, setClockBuilderData]

/-- Claim C6 witness: the amended theorem applied to a failed detection on
the constructor state and to `setupPLL` on that state. -/
theorem c6_witness :
    begin initialState busND = ⟨.ERROR_I2C_DEVICENOTFOUND, initialState, []⟩ ∧
    setupPLL initialState busOk .SI5351_PLL_A 36 0 1
      = ⟨.ERROR_DEVICENOTINITIALISED, initialState, []⟩ :=
  ⟨c6_not_initialised_amended.1 initialState busND rfl,
   c6_not_initialised_amended.2.1 initialState busOk .SI5351_PLL_A 36 0 1 rfl⟩

/-- `setLastRdiv` only touches the R-divider array, never the config
record. -/
theorem setLastRdiv_config (s : DriverState) (i v : ℕ) :
    (setLastRdiv s i v).m_si5351Config = s.m_si5351Config := by
  unfold setLastRdiv
  split_ifs <;> rfl

/-- Reading back the R-divider slot just stored. -/
theorem lastRdiv_set_self (s : DriverState) (i v : ℕ) (h : i < 3) :
    lastRdivValue (setLastRdiv s i v) i = v := by
  interval_cases i <;> simp [lastRdivValue, setLastRdiv]

/-- The state `setupRdiv` leaves behind: the channel's slot holds the
shifted 3-bit divider field (stored before the write-back, hence regardless
of the bus outcome). -/
theorem setupRdiv_st (s : DriverState) (bus : Bus) (output div : ℕ)
    (ho : output < 3) :
    (setupRdiv s bus output div).st
      = setLastRdiv s output ((div &&& 0x07) <<< 4) := by
  simp [setupRdiv, ho, read8, write8]

/-- The top two bits of `P1` extracted for the burst's third parameter byte
never exceed 3. -/
theorem p1_hi_le_three (x : ℕ) : (x &&& 0x30000) >>> 16 ≤ 3 := by
  rw [Nat.shiftRight_eq_div_pow]
  exact le_trans (Nat.div_le_div_right Nat.and_le_right) (by norm_num)

/-- Combining a 2-bit value with a shifted 3-bit field in one byte: the high
nibble returns the field, the low two bits return the value. -/
theorem lor_nibble (a r : ℕ) (ha : a ≤ 3) (hr : r ≤ 7) :
    (a ||| r <<< 4) >>> 4 = r ∧ (a ||| r <<< 4) % 4 = a := by
  interval_cases a <;> interval_cases r <;> decide

/-- Under valid arguments the Multisynth burst is always the first attempted
transaction, with the channel's stored R-divider field OR-ed into the third
parameter byte. -/
theorem setupMultisynth_burst_head (s : DriverState) (bus : Bus) (output : ℕ)
    (pll : si5351PLL_t) (div num denom : ℕ)
    (hinit : s.m_si5351Config.initialised = true)
    (ho : output < 3) (h3 : 3 < div) (h4 : div < 2049) (hd0 : 0 < denom)
    (hn : num ≤ 0xFFFFF) (hd : denom ≤ 0xFFFFF)
    (hcfg : (if pll = .SI5351_PLL_A then s.m_si5351Config.plla_configured
             else s.m_si5351Config.pllb_configured) = true) :
    (setupMultisynth s bus output pll div num denom).tr.head?
      = some (Tx.wN (msBurst (msBase output)
          (msPVals div num denom).1.toNat (msPVals div num denom).2.1.toNat
          (msPVals div num denom).2.2.toNat (lastRdivValue s output))) := by
  unfold setupMultisynth
  simp only [hinit, ho, h3, h4, hd0, hn, hd, hcfg, and_self, not_true_eq_false, if_false]
  cases h0 : bus.ok 0 <;> simp [writeN, write8, h0]

/-! ## Claim C7 -/

/-- Claim C7 (corrected): after `setupRdiv` succeeds for a channel, a
subsequent `setupMultisynth` on that channel issues an 8-byte burst whose
third parameter byte is the stored shifted R-divider field OR-ed over the
`P1` bits 17:16 — the field sits in the byte's HIGH nibble (bits 6:4), read
back by `>>> 4`, while the low two bits carry `P1[17:16]` unaffected.  (The
claim's "low nibble" is off: the low nibble holds the `P1` bits — see the
counterexample.) -/
theorem c7_rdiv_preserved_amended (s : DriverState) (bus1 bus2 : Bus)
    (output d : ℕ) (pll : si5351PLL_t) (div num denom : ℕ)
    (hinit : s.m_si5351Config.initialised = true)
    (ho : output < 3) (h3 : 3 < div) (h4 : div < 2049) (hd0 : 0 < denom)
    (hn : num ≤ 0xFFFFF) (hd : denom ≤ 0xFFFFF)
    (hcfg : (if pll = .SI5351_PLL_A then s.m_si5351Config.plla_configured
             else s.m_si5351Config.pllb_configured) = true)
    (hok : (setupRdiv s bus1 output d).err = .ERROR_NONE) :
    lastRdivValue (setupRdiv s bus1 output d).st output = (d &&& 0x07) <<< 4 ∧
    (setupMultisynth (setupRdiv s bus1 output d).st bus2 output pll div num denom).tr.head?
      = some (Tx.wN (msBurst (msBase output)
          (msPVals div num denom).1.toNat (msPVals div num denom).2.1.toNat
          (msPVals div num denom).2.2.toNat ((d &&& 0x07) <<< 4))) ∧
    (msBurst (msBase output) (msPVals div num denom).1.toNat
        (msPVals div num denom).2.1.toNat (msPVals div num denom).2.2.toNat
        ((d &&& 0x07) <<< 4)).get? 3
      = some ((((msPVals div num denom).1.toNat &&& 0x30000) >>> 16)
          ||| (d &&& 0x07) <<< 4) ∧
    ((((msPVals div num denom).1.toNat &&& 0x30000) >>> 16)
        ||| (d &&& 0x07) <<< 4) >>> 4 = d &&& 0x07 ∧
    ((((msPVals div num denom).1.toNat &&& 0x30000) >>> 16)
        ||| (d &&& 0x07) <<< 4) % 4
      = ((msPVals div num denom).1.toNat &&& 0x30000) >>> 16 := by
  have hst := setupRdiv_st s bus1 output d ho
  have hslot : lastRdivValue (setupRdiv s bus1 output d).st output = (d &&& 0x07) <<< 4 := by
    rw [hst]; exact lastRdiv_set_self s output _ ho
  have hd7 : d &&& 0x07 ≤ 7 := Nat.and_le_right
  have hnib := lor_nibble (((msPVals div num denom).1.toNat &&& 0x30000) >>> 16)
    (d &&& 0x07) (p1_hi_le_three _) hd7
  refine ⟨hslot, ?_, rfl, hnib.1, hnib.2⟩
  have hinit2 : (setupRdiv s bus1 output d).st.m_si5351Config.initialised = true := by
    rw [hst, setLastRdiv_config]; exact hinit
  have hcfg2 : (if pll = .SI5351_PLL_A
      then (setupRdiv s bus1 output d).st.m_si5351Config.plla_configured
      else (setupRdiv s bus1 output d).st.m_si5351Config.pllb_configured) = true := by
    rw [hst, setLastRdiv_config]; exact hcfg
  rw [← hslot]
  exact setupMultisynth_burst_head _ bus2 output pll div num denom hinit2 ho h3 h4
    hd0 hn hd hcfg2

/-- Claim C7 witness: channel 0, R-divider field 7, integer-mode divider 4 on
a ready state with an all-succeeding bus. -/
theorem c7_witness :
    lastRdivValue (setupRdiv readyState busOk 0 7).st 0 = 0x70 ∧
    (setupMultisynth (setupRdiv readyState busOk 0 7).st busOk 0
        .SI5351_PLL_A 4 0 1).tr.head?
      = some (Tx.wN (msBurst (msBase 0) (msPVals 4 0 1).1.toNat
          (msPVals 4 0 1).2.1.toNat (msPVals 4 0 1).2.2.toNat 0x70)) :=
  ⟨(c7_rdiv_preserved_amended readyState busOk busOk 0 7 .SI5351_PLL_A 4 0 1 rfl
      (by norm_num) (by norm_num) (by norm_num) (by norm_num) (by norm_num)
      (by norm_num) (by decide) (by decide)).1,
   (c7_rdiv_preserved_amended readyState busOk busOk 0 7 .SI5351_PLL_A 4 0 1 rfl
      (by norm_num) (by norm_num) (by norm_num) (by norm_num) (by norm_num)
      (by norm_num) (by decide) (by decide)).2.1⟩

/-! ## Claim C9 -/

/-- Claim C9 (corrected): over the full documented domains, `P3 = denom`
always fits in 20 bits for both stages; in integer mode (`num = 0`) `P1`
fits in 18 bits (and `P2 = 0`) over the full domains; and the exact
documented floor formulas — which the code approximates in binary32 —
satisfy `P1 < 2^18` and `0 ≤ P2 < 2^20` whenever the fraction is proper
(`num < denom`).  Without `num < denom` the bounds fail inside the
documented domains (see the counterexample). -/
theorem c9_packed_field_bounds_amended :
    (∀ m n d : ℕ, 0 < d → d ≤ 0xFFFFF →
      (pllPVals m n d).2.2 = (d : ℤ) ∧ (pllPVals m n d).2.2 < 2 ^ 20) ∧
    (∀ a n d : ℕ, 0 < d → d ≤ 0xFFFFF →
      (msPVals a n d).2.2 = (d : ℤ) ∧ (msPVals a n d).2.2 < 2 ^ 20) ∧
    (∀ m d : ℕ, 14 < m → m < 91 → 0 < d → d ≤ 0xFFFFF →
      pllPVals m 0 d = (128 * (m : ℤ) - 512, 0, (d : ℤ)) ∧
      0 ≤ 128 * (m : ℤ) - 512 ∧ 128 * (m : ℤ) - 512 < 2 ^ 18) ∧
    (∀ a d : ℕ, 3 < a → a < 2049 → 0 < d → d ≤ 0xFFFFF →
      msPVals a 0 d = (128 * (a : ℤ) - 512, 0, (d : ℤ)) ∧
      0 ≤ 128 * (a : ℤ) - 512 ∧ 128 * (a : ℤ) - 512 < 2 ^ 18) ∧
    (∀ a n d : ℕ, 3 < a → a < 2049 → n < d → d ≤ 0xFFFFF →
      0 ≤ (specPVals a n d).1 ∧ (specPVals a n d).1 < 2 ^ 18 ∧
      0 ≤ (specPVals a n d).2.1 ∧ (specPVals a n d).2.1 < 2 ^ 20 ∧
      0 < (specPVals a n d).2.2 ∧ (specPVals a n d).2.2 < 2 ^ 20) := by
  have hcast : ∀ d : ℕ, d ≤ 0xFFFFF → (d : ℤ) < 2 ^ 20 := by
    intro d hd
    exact_mod_cast Nat.lt_of_le_of_lt hd (by norm_num)
  refine ⟨?_, ?_, ?_, ?_, ?_⟩
  · intro m n d h0 hdle
    by_cases hn0 : n = 0 <;> simp [pllPVals, hn0] <;> omega
  · intro a n d h0 hdle
    by_cases hn0 : n = 0
    · simp [msPVals, hn0]; omega
    · by_cases hd1 : d = 1
      · subst hd1; simp [msPVals, hn0]
      · simp [msPVals, hn0, hd1]; omega
  · intro m d h1 h2 h0 hdle
    refine ⟨by simp [pllPVals], by omega, ?_⟩
    have : (m : ℤ) < 91 := by exact_mod_cast h2
    norm_num
    omega
  · intro a d h1 h2 h0 hdle
    refine ⟨by simp [msPVals], by omega, ?_⟩
    have : (a : ℤ) < 2049 := by exact_mod_cast h2
    norm_num
    omega
  · intro a n d h3 h4 hnd hdle
    have h0 : 0 < d := Nat.lt_of_le_of_lt (Nat.zero_le n) hnd
    have hq127 : 128 * n / d < 128 :=
      (Nat.div_lt_iff_lt_mul h0).mpr (by omega)
    have e1 : 128 * n % d + d * (128 * n / d) = 128 * n := Nat.mod_add_div _ _
    have hmod : (specPVals a n d).2.1 = ((128 * n % d : ℕ) : ℤ) := by
      simp only [specPVals]
      push_cast
      have e2 : ((128 * n % d : ℕ) : ℤ) + (d : ℤ) * ((128 * n / d : ℕ) : ℤ)
          = 128 * (n : ℤ) := by exact_mod_cast congrArg (fun x : ℕ => (x : ℤ)) e1
      linarith
    have hmodlt : 128 * n % d < d := Nat.mod_lt _ h0
    refine ⟨?_, ?_, ?_, ?_, ?_, ?_⟩
    · simp only [specPVals]
      have hq0 : (0 : ℤ) ≤ ((128 * n / d : ℕ) : ℤ) := Int.natCast_nonneg _
      have ha4 : (4 : ℤ) ≤ (a : ℤ) := by exact_mod_cast h3
      linarith
    · simp only [specPVals]
      have hqz : ((128 * n / d : ℕ) : ℤ) ≤ 127 := by exact_mod_cast Nat.le_of_lt_succ hq127
      have ha : (a : ℤ) ≤ 2048 := by exact_mod_cast Nat.le_of_lt_succ h4
      norm_num
      linarith
    · rw [hmod]; exact Int.natCast_nonneg _
    · rw [hmod]
      exact_mod_cast Nat.lt_of_lt_of_le hmodlt (le_trans hdle (by norm_num))
    · simp only [specPVals]; exact_mod_cast h0
    · simp only [specPVals]; exact hcast d hdle

/-- Claim C9 witness: the amended bounds applied at concrete in-domain
inputs (`P3` for the PLL stage at denom 7; the exact formulas at
`a = 4, n = 1, d = 3`). -/
theorem c9_witness :
    (pllPVals 36 0 7).2.2 = (7 : ℤ) ∧
    0 ≤ (specPVals 4 1 3).1 ∧ (specPVals 4 1 3).1 < 2 ^ 18 :=
  ⟨(c9_packed_field_bounds_amended.1 36 0 7 (by norm_num) (by norm_num)).1,
   (c9_packed_field_bounds_amended.2.2.2.2 4 1 3 (by norm_num) (by norm_num)
      (by norm_num) (by norm_num)).1,
   (c9_packed_field_bounds_amended.2.2.2.2 4 1 3 (by norm_num) (by norm_num)
      (by norm_num) (by norm_num)).2.1⟩

end Si5351
